import Mathlib

/-
Shallow embedding of the nms-glyph portal image server (main.go and
res/portal.js) and proofs about its generate-or-serve image pipeline.

Modelling conventions:
  - the filesystem is explicit state (FS): a cache-directory flag and an
    association list from file names to byte lists (first entry wins, as
    a later create/truncate shadows earlier contents);
  - external, fallible effects (embedded-font read plus parse, the
    freetype DrawString call, and disk write errors) are supplied by an
    Env record; the PNG encoder is an abstract deterministic function
    Env.pngEncode, matching the fact that image/png encoding of a fixed
    RGBA image is a pure function of the pixels, and write failures are
    tracked by separate Bool flags;
  - each pipeline step also emits a trace of events (List Ev) recording
    which collaborators were invoked, so that claims of the form "the
    renderer is never invoked on this path" are statable.
-/

namespace NmsGlyph

/-- An 8-bit-per-channel RGBA color, as in image/color RGBA. -/
structure RGBA where
  r : Nat
  g : Nat
  b : Nat
  a : Nat
deriving DecidableEq, Repr

/-- glyphColor = color.RGBA{0x00, 0xB0, 0xBD, 0xFF} from main.go. -/
def glyphColor : RGBA := ⟨0x00, 0xB0, 0xBD, 0xFF⟩

/-- bgColor = color.RGBA{0x00, 0x00, 0x00, 0x2C} from main.go. -/
def bgColor : RGBA := ⟨0x00, 0x00, 0x00, 0x2C⟩

/-- fontDpi constant from main.go. -/
def fontDpi : Nat := 72

/-- fontSize constant from main.go. -/
def fontSize : Nat := 50

/-- cacheDir constant from main.go. -/
def cacheDir : String := "cache"

/-- imgWidth constant from main.go. -/
def imgWidth : Nat := 800

/-- imgHeight constant from main.go. -/
def imgHeight : Nat := 45

/-- borderWidth constant from main.go (as Int, since the source compares
it against 0 with borderWidth <= 0). -/
def borderWidth : Int := 1

/-- An RGBA raster image: bounds plus a pixel function. Pixels outside
the bounds are not part of the image. -/
structure RGBAImage where
  width : Nat
  height : Nat
  pix : Nat → Nat → RGBA

/-- One iteration body of the border loop in CreateBlank: the switch
statement that overwrites pixel (x, y) with glyphColor when it lies in
the border band, tested in source order (left, right, top, bottom). -/
def setBorderPix (B : Int) (x y : Nat) (base : RGBA) : RGBA :=
  if (x : Int) < B then glyphColor
  else if (x : Int) ≥ (imgWidth : Int) - B then glyphColor
  else if (y : Int) < B then glyphColor
  else if (y : Int) ≥ (imgHeight : Int) - B then glyphColor
  else base

/-- CreateBlank from main.go, with the border thickness as a parameter:
a width times height canvas filled with bgColor (draw.Src of the uniform
background), returned as-is when B is not positive, and otherwise with
the border loop applied to every in-bounds pixel. -/
def CreateBlankWith (B : Int) : RGBAImage :=
  { width := imgWidth
    height := imgHeight
    pix := fun x y =>
      if B ≤ 0 then bgColor
      else if x < imgWidth ∧ y < imgHeight then setBorderPix B x y bgColor
      else bgColor }

/-- CreateBlank from main.go at the configured borderWidth. -/
def CreateBlank : RGBAImage := CreateBlankWith borderWidth

/-- An abstract parsed truetype font object. -/
structure Font where
  id : Nat
deriving DecidableEq, Repr

/-- The font.Hinting policy; the source only uses font.HintingNone. -/
inductive Hinting
  | hintingNone
deriving DecidableEq, Repr

/-- fontHinting constant from main.go. -/
def fontHinting : Hinting := .hintingNone

/-- Byte sequences (file contents, response bodies). -/
abbrev Bytes := List Nat

/-- The error kinds produced by main.go, one per fmt.Errorf wrap site. -/
inductive Err
  | readingFont
  | parsingFont
  | drawingText
  | creatingCacheDir
  | accessingCacheDir
  | creatingImageFile
  | encodingImage
  | flushingImage
  | cacheOpen
  | cacheCopy
  | creatingImage (e : Err)
  | encodingToOutput
deriving DecidableEq, Repr

/-- Trace events recording which collaborators a pipeline run invoked. -/
inductive Ev
  | loadFont
  | composeCanvas
  | renderText
  | statCacheDir
  | mkdirCacheDir
  | createCacheFile
  | encodeToCache
  | statCacheFile
  | cacheOpen
  | cacheRead
  | encodeToResp
deriving DecidableEq, Repr

/-- The external environment: outcomes of the fallible external calls.
fontResult is the outcome of reading and parsing the embedded font;
draw is the freetype DrawString effect (font, text, draw point, image
in, image out or error); pngEncode is the deterministic PNG encoder;
the Bool flags give the outcomes of the individual disk operations. -/
structure Env where
  fontResult : Except Err Font
  draw : Font → String → (Int × Int) → RGBAImage → Except Unit RGBAImage
  pngEncode : RGBAImage → Bytes
  statDirOk : Bool
  mkdirOk : Bool
  createOk : Bool
  encodeCacheOk : Bool
  flushOk : Bool
  respEncodeOk : Bool

/-- The filesystem state: whether the cache directory exists, and the
cache files (association list, first entry for a name wins). -/
structure FS where
  dirExists : Bool
  files : List (String × Bytes)
deriving DecidableEq, Repr

/-- Look a file up by name. -/
def FS.lookup (fs : FS) (name : String) : Option Bytes :=
  fs.files.lookup name

/-- Create or truncate a file: the new entry shadows any old one. -/
def FS.setFile (fs : FS) (name : String) (content : Bytes) : FS :=
  { fs with files := (name, content) :: fs.files }

/-- fmt.Sprintf of the cache file path for an address, as used both by
SaveToCache and by WritePortalImage. -/
def cacheFileName (address : String) : String :=
  cacheDir ++ "/" ++ address ++ ".png"

/-- ReadFont from main.go: reads res/NMS-Glyphs-Mono.ttf from the
embedded FS and parses it; the outcome is supplied by the environment. -/
def ReadFont (env : Env) : Except Err Font := env.fontResult

/-- The freetype.Context configuration as set up by the source. -/
structure FtContext where
  dpi : Nat
  font : Font
  hinting : Hinting
  size : Nat
  src : RGBA
  dst : RGBAImage
  clip : Nat × Nat

/-- PrepareFreetypeContext from main.go: dpi, font, hinting, size,
source color, destination image and clip bounds. -/
def PrepareFreetypeContext (dst : RGBAImage) (f : Font) : FtContext :=
  { dpi := fontDpi
    font := f
    hinting := fontHinting
    size := fontSize
    src := glyphColor
    dst := dst
    clip := (dst.width, dst.height) }

/-- freetype Context.PointToFixed: x * dpi * (64 / 72) as a 26.6 fixed
point value. At the constants of this program (x = 50, dpi = 72) the
float computation is exact, so it is modelled with exact integer
arithmetic. -/
def pointToFixed (dpi x : Nat) : Nat := x * dpi * 64 / 72

/-- The point handed to DrawString by DrawText: x origin 0 and
y = int(c.PointToFixed(fontSize) >> 6) - 10. -/
def drawTextPoint (c : FtContext) : Int × Int :=
  (0, ((pointToFixed c.dpi fontSize >>> 6 : Nat) : Int) - 10)

/-- DrawText from main.go: computes the baseline point and calls
DrawString; a DrawString error is wrapped as the drawing-text error. -/
def DrawText (env : Env) (c : FtContext) (text : String) :
    Except Err RGBAImage :=
  match env.draw c.font text (drawTextPoint c) c.dst with
  | .error _ => .error .drawingText
  | .ok img => .ok img

/-- The create/encode/flush tail of SaveToCache, after the cache
directory is known to exist: os.Create truncates the target file, then
png.Encode writes into the buffered writer, then Flush commits. A
failure after the create leaves a truncated (here: empty) file behind. -/
def saveCreateFile (env : Env) (fs : FS) (img : RGBAImage)
    (address : String) (evs : List Ev) : Except Err Unit × FS × List Ev :=
  if env.createOk then
    if env.encodeCacheOk then
      if env.flushOk then
        (.ok (), fs.setFile (cacheFileName address) (env.pngEncode img),
          evs ++ [.createCacheFile, .encodeToCache])
      else
        (.error .flushingImage, fs.setFile (cacheFileName address) [],
          evs ++ [.createCacheFile, .encodeToCache])
    else
      (.error .encodingImage, fs.setFile (cacheFileName address) [],
        evs ++ [.createCacheFile, .encodeToCache])
  else
    (.error .creatingImageFile, fs, evs ++ [.createCacheFile])

/-- SaveToCache from main.go: stat the cache directory, mkdir it when
absent (failing the write when mkdir or stat fails), then create the
file, encode the image into it and flush. -/
def SaveToCache (env : Env) (fs : FS) (img : RGBAImage)
    (address : String) : Except Err Unit × FS × List Ev :=
  if fs.dirExists then
    if env.statDirOk then
      saveCreateFile env fs img address [.statCacheDir]
    else
      (.error .accessingCacheDir, fs, [.statCacheDir])
  else
    if env.mkdirOk then
      saveCreateFile env { fs with dirExists := true } img address
        [.statCacheDir, .mkdirCacheDir]
    else
      (.error .creatingCacheDir, fs, [.statCacheDir, .mkdirCacheDir])

/-- CreatePortalImage from main.go: load the font, compose the blank
canvas, prepare the freetype context, draw the address text, save the
result to the cache, and return the rendered image. Each failing step
returns its error immediately. -/
def CreatePortalImage (env : Env) (fs : FS) (address : String) :
    Except Err RGBAImage × FS × List Ev :=
  match ReadFont env with
  | .error e => (.error e, fs, [.loadFont])
  | .ok f =>
    match DrawText env (PrepareFreetypeContext CreateBlank f) address with
    | .error e => (.error e, fs, [.loadFont, .composeCanvas, .renderText])
    | .ok img2 =>
      match SaveToCache env fs img2 address with
      | (.error e, fs2, evs) =>
        (.error e, fs2, [.loadFont, .composeCanvas, .renderText] ++ evs)
      | (.ok _, fs2, evs) =>
        (.ok img2, fs2, [.loadFont, .composeCanvas, .renderText] ++ evs)

/-- An HTTP response under construction: the Content-Type header and
the body bytes written so far. -/
structure Resp where
  contentType : Option String
  body : Bytes
deriving DecidableEq, Repr

/-- ServeFromCache from main.go: open the named file and io.Copy it to
the response writer. -/
def ServeFromCache (fs : FS) (resp : Resp) (filename : String) :
    Except Err Unit × Resp × List Ev :=
  match fs.lookup filename with
  | none => (.error .cacheOpen, resp, [.cacheOpen])
  | some content =>
    (.ok (), { resp with body := resp.body ++ content },
      [.cacheOpen, .cacheRead])

/-- WritePortalImage from main.go: set Content-Type to image/png, stat
the cache file and serve it when present; otherwise generate via
CreatePortalImage and png.Encode the image a second time directly into
the response. -/
def WritePortalImage (env : Env) (fs : FS) (address : String) :
    Except Err Unit × Resp × FS × List Ev :=
  let resp0 : Resp := { contentType := some "image/png", body := [] }
  match fs.lookup (cacheFileName address) with
  | some _ =>
    match ServeFromCache fs resp0 (cacheFileName address) with
    | (r, resp, evs) => (r, resp, fs, .statCacheFile :: evs)
  | none =>
    match CreatePortalImage env fs address with
    | (.error e, fs2, evs) =>
      (.error (.creatingImage e), resp0, fs2, .statCacheFile :: evs)
    | (.ok img, fs2, evs) =>
      if env.respEncodeOk then
        (.ok (), { resp0 with body := env.pngEncode img }, fs2,
          .statCacheFile :: evs ++ [.encodeToResp])
      else
        (.error .encodingToOutput, resp0, fs2,
          .statCacheFile :: evs ++ [.encodeToResp])

/-- RouteAddress from main.go: runs WritePortalImage and logs (drops)
any error; the response and filesystem effects stand. -/
def RouteAddress (env : Env) (fs : FS) (address : String) :
    Resp × FS × List Ev :=
  match WritePortalImage env fs address with
  | (_, resp, fs2, evs) => (resp, fs2, evs)

/-- Whether a character is matched by the route character class
[0-9A-F]. -/
def isUpperHexDigit (c : Char) : Bool :=
  (decide ('0' ≤ c) && decide (c ≤ '9')) ||
  (decide ('A' ≤ c) && decide (c ≤ 'F'))

/-- The chi route pattern of main.go for the image route: the path is a
slash, then exactly 16 characters of [0-9A-F] (the address parameter),
then the literal .png, and nothing else. Returns the captured address. -/
def routeMatch (path : String) : Option String :=
  match path.data with
  | [] => none
  | c :: rest =>
    if c = '/' ∧ (rest.take 16).length = 16 ∧
        (rest.take 16).all isUpperHexDigit = true ∧
        rest.drop 16 = ['.', 'p', 'n', 'g'] then
      some (String.mk (rest.take 16))
    else none

/-- The router of main.go: a path matching the address route is handled
by RouteAddress; every other path falls through to the static file
server, which touches neither the renderer nor the cache. -/
def handleRequest (env : Env) (fs : FS) (path : String) :
    Resp × FS × List Ev :=
  match routeMatch path with
  | some address => RouteAddress env fs address
  | none => ({ contentType := none, body := [] }, fs, [])

/-- Whether a character is matched by the front-end character class
[A-Z0-9]. -/
def isUpperAlnum (c : Char) : Bool :=
  (decide ('0' ≤ c) && decide (c ≤ '9')) ||
  (decide ('A' ≤ c) && decide (c ≤ 'Z'))

/-- Whether a character list contains 12 consecutive characters all in
[A-Z0-9], i.e. whether the unanchored front-end regex finds a match. -/
def hasAlnumRun12 : List Char → Bool
  | [] => false
  | c :: cs =>
    (decide (((c :: cs).take 12).length = 12) &&
      ((c :: cs).take 12).all isUpperAlnum) || hasAlnumRun12 cs

/-- The validAddress test of res/portal.js: value.match of the regex
[A-Z0-9] repeated 12 times, unanchored. -/
def validAddress (s : String) : Bool := hasAlnumRun12 s.data

/-- The image rendered for an address, independent of any filesystem
state: font load followed by drawing onto the blank canvas. -/
def renderResult (env : Env) (address : String) : Except Err RGBAImage :=
  match env.fontResult with
  | .error e => .error e
  | .ok f => DrawText env (PrepareFreetypeContext CreateBlank f) address

/-- A concrete font token for concrete runs. -/
def theFont : Font := ⟨0⟩

/-- A concrete environment in which every external call succeeds: the
DrawString effect leaves the canvas unchanged and the encoder returns a
fixed byte list. -/
def okEnv : Env :=
  { fontResult := .ok theFont
    draw := fun _ _ _ img => .ok img
    pngEncode := fun _ => [137, 80, 78, 71]
    statDirOk := true
    mkdirOk := true
    createOk := true
    encodeCacheOk := true
    flushOk := true
    respEncodeOk := true }

/-- okEnv except that os.Create of the cache file fails. -/
def badCreateEnv : Env := { okEnv with createOk := false }

/-- okEnv except that DrawString reports an error. -/
def badDrawEnv : Env := { okEnv with draw := fun _ _ _ _ => .error () }

/-- An empty filesystem whose cache directory exists. -/
def fs0 : FS := { dirExists := true, files := [] }

/-- An empty filesystem without a cache directory. -/
def fsNoDir : FS := { dirExists := false, files := [] }

/-- A sample sixteen-character upper-hex address. -/
def addr16 : String := "0123456789ABCDEF"

/-- A filesystem already holding a cache entry for addr16. -/
def fsWithEntry : FS := fs0.setFile (cacheFileName addr16) [1, 2, 3]

theorem FS.lookup_setFile (fs : FS) (name : String) (content : Bytes) :
    (fs.setFile name content).lookup name = some content := by
  simp [FS.lookup, FS.setFile, List.lookup]

theorem saveToCache_ok (env : Env) (fs : FS) (img : RGBAImage)
    (address : String) (u : Unit)
    (h : (SaveToCache env fs img address).1 = .ok u) :
    (SaveToCache env fs img address).2.1.lookup (cacheFileName address) =
      some (env.pngEncode img) := by
  unfold SaveToCache saveCreateFile at h ⊢
  split_ifs at h ⊢ <;> simp_all [FS.lookup_setFile]

theorem createPortalImage_ok_lookup (env : Env) (fs : FS)
    (address : String) (img : RGBAImage)
    (h : (CreatePortalImage env fs address).1 = .ok img) :
    (CreatePortalImage env fs address).2.1.lookup (cacheFileName address) =
      some (env.pngEncode img) := by
  rcases hf : ReadFont env with e | f
  · simp [CreatePortalImage, hf] at h
  · rcases hd : DrawText env (PrepareFreetypeContext CreateBlank f) address
      with e | img2
    · simp [CreatePortalImage, hf, hd] at h
    · rcases hS : SaveToCache env fs img2 address with ⟨r, fs2, evs⟩
      rcases r with e | u
      · simp [CreatePortalImage, hf, hd, hS] at h
      · have hok : (SaveToCache env fs img2 address).1 = .ok u := by rw [hS]
        have hl := saveToCache_ok env fs img2 address u hok
        rw [hS] at hl
        simp only at hl
        simp only [CreatePortalImage, hf, hd, hS] at h ⊢
        simp only [Except.ok.injEq] at h
        rw [← h]
        exact hl

theorem createPortalImage_ok_render (env : Env) (fs : FS)
    (address : String) (img : RGBAImage)
    (h : (CreatePortalImage env fs address).1 = .ok img) :
    renderResult env address = .ok img := by
  rcases hf : ReadFont env with e | f
  · simp [CreatePortalImage, hf] at h
  · rcases hd : DrawText env (PrepareFreetypeContext CreateBlank f) address
      with e | img2
    · simp [CreatePortalImage, hf, hd] at h
    · rcases hS : SaveToCache env fs img2 address with ⟨r, fs2, evs⟩
      rcases r with e | u
      · simp [CreatePortalImage, hf, hd, hS] at h
      · simp only [CreatePortalImage, hf, hd, hS] at h
        simp only [Except.ok.injEq] at h
        have hf2 : env.fontResult = .ok f := hf
        simp [renderResult, hf2, hd, h]

/-- Claim C4: the blank canvas has exactly the configured width 800 and
height 45; for a positive configured border thickness B, every in-bounds
pixel within B of an edge equals the border (glyph) color and every
other in-bounds pixel equals the translucent background color; for
non-positive B the border step is skipped and every in-bounds pixel
equals the background color. -/
theorem createBlank_geometry :
    CreateBlank.width = 800 ∧ CreateBlank.height = 45 ∧
    ∀ (B : Int) (x y : Nat), x < imgWidth → y < imgHeight →
      (0 < B →
        (((x : Int) < B ∨ (x : Int) ≥ (imgWidth : Int) - B ∨
          (y : Int) < B ∨ (y : Int) ≥ (imgHeight : Int) - B) →
            (CreateBlankWith B).pix x y = glyphColor) ∧
        (¬ ((x : Int) < B ∨ (x : Int) ≥ (imgWidth : Int) - B ∨
          (y : Int) < B ∨ (y : Int) ≥ (imgHeight : Int) - B) →
            (CreateBlankWith B).pix x y = bgColor)) ∧
      (B ≤ 0 → (CreateBlankWith B).pix x y = bgColor) := by
  refine ⟨rfl, rfl, ?_⟩
  intro B x y hx hy
  refine ⟨fun hB => ⟨fun hb => ?_, fun hb => ?_⟩, fun hB => ?_⟩ <;>
    simp only [CreateBlankWith, setBorderPix] <;>
    split_ifs <;> first | rfl | omega

/-- Claim C4 witness: concrete pixels of the canvas with border
thickness 1 and with border thickness 0. -/
theorem createBlank_geometry_witness :
    (CreateBlankWith 1).pix 0 0 = glyphColor ∧
    (CreateBlankWith 1).pix 5 5 = bgColor ∧
    (CreateBlankWith 0).pix 5 5 = bgColor := by
  refine ⟨?_, ?_, ?_⟩
  · exact ((createBlank_geometry.2.2 1 0 0 (by decide) (by decide)).1
      (by decide)).1 (by decide)
  · exact ((createBlank_geometry.2.2 1 5 5 (by decide) (by decide)).1
      (by decide)).2 (by decide)
  · exact (createBlank_geometry.2.2 0 5 5 (by decide) (by decide)).2
      (by decide)

theorem drawTextPoint_eq (dst : RGBAImage) (f : Font) :
    drawTextPoint (PrepareFreetypeContext dst f) = ((0 : Int), 40) := by
  simp only [drawTextPoint, PrepareFreetypeContext, pointToFixed,
    fontDpi, fontSize]
  decide

/-- Claim C7: the text renderer computes the DrawString point with
y equal to the floored font size in pixels minus 10 (50 - 10 = 40 at
font size 50 points and 72 DPI) and x origin 0, and DrawText draws the
address string at exactly that point. -/
theorem drawText_origin :
    (∀ (dst : RGBAImage) (f : Font),
      drawTextPoint (PrepareFreetypeContext dst f) =
        ((0 : Int), ((pointToFixed fontDpi fontSize >>> 6 : Nat) : Int) - 10) ∧
      drawTextPoint (PrepareFreetypeContext dst f) = ((0 : Int), 40)) ∧
    pointToFixed fontDpi fontSize >>> 6 = 50 ∧
    (∀ (env : Env) (dst : RGBAImage) (f : Font) (text : String)
        (img : RGBAImage),
      env.draw f text ((0 : Int), 40) dst = .ok img →
        DrawText env (PrepareFreetypeContext dst f) text = .ok img) ∧
    (∀ (env : Env) (dst : RGBAImage) (f : Font) (text : String),
      env.draw f text ((0 : Int), 40) dst = .error () →
        DrawText env (PrepareFreetypeContext dst f) text =
          .error .drawingText) := by
  refine ⟨fun dst f => ⟨?_, drawTextPoint_eq dst f⟩, rfl, ?_, ?_⟩
  · simp only [drawTextPoint, PrepareFreetypeContext, pointToFixed,
      fontDpi, fontSize]
  · intro env dst f text img hok
    unfold DrawText
    rw [drawTextPoint_eq]
    simp only [PrepareFreetypeContext]
    rw [hok]
  · intro env dst f text herr
    unfold DrawText
    rw [drawTextPoint_eq]
    simp only [PrepareFreetypeContext]
    rw [herr]

/-- Claim C7 witness: at a concrete environment, font and canvas, the
draw call lands at the point with x 0 and y 40, on both the success and
the error path of DrawString. -/
theorem drawText_origin_witness :
    drawTextPoint (PrepareFreetypeContext CreateBlank theFont) =
      ((0 : Int), 40) ∧
    DrawText okEnv (PrepareFreetypeContext CreateBlank theFont) addr16 =
      .ok CreateBlank ∧
    DrawText badDrawEnv (PrepareFreetypeContext CreateBlank theFont) addr16 =
      .error .drawingText :=
  ⟨(drawText_origin.1 CreateBlank theFont).2,
    drawText_origin.2.2.1 okEnv CreateBlank theFont addr16 CreateBlank rfl,
    drawText_origin.2.2.2 badDrawEnv CreateBlank theFont addr16 rfl⟩

/-- Claim C2: a request path is routed to the rendering and cache
pipeline exactly when it is a slash, an address of exactly 16 characters
over the alphabet 0-9 A-F, and the suffix .png; every other path (wrong
length, wrong alphabet, empty address) is handled with no rendering and
no cache event at all. -/
theorem route_validation_boundary :
    ∀ (path : String),
      (∀ a : String, routeMatch path = some a ↔
        (path.data = '/' :: (a.data ++ ['.', 'p', 'n', 'g']) ∧
         a.data.length = 16 ∧ a.data.all isUpperHexDigit = true)) ∧
      (routeMatch path = none →
        ∀ (env : Env) (fs : FS), (handleRequest env fs path).2.2 = []) := by
  intro path
  constructor
  · intro a
    constructor
    · intro h
      unfold routeMatch at h
      rcases hp : path.data with _ | ⟨c, rest⟩
      · rw [hp] at h
        have h2 : (none : Option String) = some a := h
        simp at h2
      · rw [hp] at h
        have h2 : (if c = '/' ∧ (rest.take 16).length = 16 ∧
            (rest.take 16).all isUpperHexDigit = true ∧
            rest.drop 16 = ['.', 'p', 'n', 'g'] then
            some (String.mk (rest.take 16)) else none) = some a := h
        split_ifs at h2 with hc
        · obtain ⟨hslash, hlen, hall, hdrop⟩ := hc
          simp only [Option.some.injEq] at h2
          subst h2
          refine ⟨?_, hlen, hall⟩
          rw [hslash]
          show ('/' : Char) :: rest = '/' :: (rest.take 16 ++ ['.', 'p', 'n', 'g'])
          rw [← hdrop, List.take_append_drop]
    · rintro ⟨hdata, hlen, hall⟩
      unfold routeMatch
      rw [hdata]
      have htake : ((a.data ++ ['.', 'p', 'n', 'g'] : List Char)).take 16 =
          a.data := List.take_left' hlen
      have hdrop : ((a.data ++ ['.', 'p', 'n', 'g'] : List Char)).drop 16 =
          ['.', 'p', 'n', 'g'] := List.drop_left' hlen
      show (if ('/' : Char) = '/' ∧
            ((a.data ++ ['.', 'p', 'n', 'g']).take 16).length = 16 ∧
            ((a.data ++ ['.', 'p', 'n', 'g']).take 16).all isUpperHexDigit
              = true ∧
            (a.data ++ ['.', 'p', 'n', 'g']).drop 16 = ['.', 'p', 'n', 'g'] then
          some (String.mk ((a.data ++ ['.', 'p', 'n', 'g']).take 16))
        else none) = some a
      rw [if_pos ⟨rfl, by rw [htake]; exact hlen, by rw [htake]; exact hall,
        hdrop⟩, htake]
  · intro hnone env fs
    unfold handleRequest
    rw [hnone]

/-- Claim C2 witness: the well-formed sample path is routed with its
address extracted, and a short path produces no pipeline event. -/
theorem route_validation_boundary_witness :
    routeMatch "/0123456789ABCDEF.png" = some "0123456789ABCDEF" ∧
    (handleRequest okEnv fs0 "/0123.png").2.2 = [] := by
  constructor
  · exact ((route_validation_boundary "/0123456789ABCDEF.png").1
      "0123456789ABCDEF").mpr ⟨by decide, by decide, by decide⟩
  · exact (route_validation_boundary "/0123.png").2 (by decide) okEnv fs0

/-- Claim C6: the front-end validator accepts every address of 12
characters over A-Z 0-9, while the server route rejects every path built
from a 12-character address, since it demands 16 characters of 0-9 A-F
before the .png suffix. -/
theorem mismatched_validators :
    (∀ a : String, a.data.length = 12 → a.data.all isUpperAlnum = true →
      validAddress a = true) ∧
    (∀ (path a : String),
      path.data = '/' :: (a.data ++ ['.', 'p', 'n', 'g']) →
      a.data.length = 12 → routeMatch path = none) := by
  constructor
  · intro a hlen hall
    unfold validAddress
    rcases ha : a.data with _ | ⟨c, cs⟩
    · rw [ha] at hlen
      simp at hlen
    · rw [ha] at hlen hall
      unfold hasAlnumRun12
      have htake : (c :: cs).take 12 = c :: cs := by
        rw [← hlen]
        exact List.take_length (c :: cs)
      rw [htake, hlen, hall]
      simp
  · intro path a hdata hlen
    unfold routeMatch
    rw [hdata]
    have hlen16 : (a.data ++ ['.', 'p', 'n', 'g'] : List Char).length = 16 := by
      simp [hlen]
    have hdrop : (a.data ++ ['.', 'p', 'n', 'g'] : List Char).drop 16 = [] := by
      rw [← hlen16]
      exact List.drop_length _
    show (if ('/' : Char) = '/' ∧
          ((a.data ++ ['.', 'p', 'n', 'g']).take 16).length = 16 ∧
          ((a.data ++ ['.', 'p', 'n', 'g']).take 16).all isUpperHexDigit
            = true ∧
          (a.data ++ ['.', 'p', 'n', 'g']).drop 16 = ['.', 'p', 'n', 'g'] then
        some (String.mk ((a.data ++ ['.', 'p', 'n', 'g']).take 16))
      else none) = none
    rw [if_neg]
    intro hc
    rw [hdrop] at hc
    exact absurd hc.2.2.2 (by decide)

/-- Claim C6 witness: a concrete 12-character address is accepted by the
front-end validator and its path is rejected by the server route. -/
theorem mismatched_validators_witness :
    validAddress "AAAAAAAAAAAA" = true ∧
    routeMatch "/AAAAAAAAAAAA.png" = none := by
  constructor
  · exact mismatched_validators.1 "AAAAAAAAAAAA" (by decide) (by decide)
  · exact mismatched_validators.2 "/AAAAAAAAAAAA.png" "AAAAAAAAAAAA"
      (by decide) (by decide)

theorem drawText_ok_eq (env : Env) (dst : RGBAImage) (f : Font)
    (text : String) (img : RGBAImage)
    (hok : env.draw f text ((0 : Int), 40) dst = .ok img) :
    DrawText env (PrepareFreetypeContext dst f) text = .ok img := by
  unfold DrawText
  rw [drawTextPoint_eq]
  simp only [PrepareFreetypeContext]
  rw [hok]

theorem drawText_error_eq (env : Env) (dst : RGBAImage) (f : Font)
    (text : String)
    (herr : env.draw f text ((0 : Int), 40) dst = .error ()) :
    DrawText env (PrepareFreetypeContext dst f) text = .error .drawingText := by
  unfold DrawText
  rw [drawTextPoint_eq]
  simp only [PrepareFreetypeContext]
  rw [herr]

theorem writePortalImage_contentType (env : Env) (fs : FS)
    (address : String) :
    (WritePortalImage env fs address).2.1.contentType = some "image/png" := by
  rcases hl : fs.lookup (cacheFileName address) with _ | content
  · rcases hC : CreatePortalImage env fs address with ⟨r, fs2, evs⟩
    rcases r with e | img
    · simp [WritePortalImage, hl, hC]
    · cases hresp : env.respEncodeOk <;> simp [WritePortalImage, hl, hC, hresp]
  · simp [WritePortalImage, hl, ServeFromCache]

/-- Claim C1: on a cache miss on which generation and the response write
succeed, the cache file for the address holds exactly the PNG encoding
of the rendered image, the bytes written to the response body by the
second, independent encoding of that same image are identical to the
cached bytes, and reading the cache file back returns those bytes. -/
theorem cache_fidelity :
    ∀ (env : Env) (fs : FS) (address : String) (img : RGBAImage),
      fs.lookup (cacheFileName address) = none →
      (CreatePortalImage env fs address).1 = .ok img →
      (WritePortalImage env fs address).1 = .ok () →
      (WritePortalImage env fs address).2.2.1.lookup (cacheFileName address) =
        some (env.pngEncode img) ∧
      (WritePortalImage env fs address).2.1.body = env.pngEncode img ∧
      (ServeFromCache (WritePortalImage env fs address).2.2.1
          { contentType := none, body := [] }
          (cacheFileName address)).2.1.body = env.pngEncode img := by
  intro env fs address img hmiss hok hw
  rcases hC : CreatePortalImage env fs address with ⟨r, fs2, evs⟩
  have hr : r = .ok img := by
    rw [hC] at hok
    simpa using hok
  subst hr
  have hl : fs2.lookup (cacheFileName address) = some (env.pngEncode img) := by
    have h2 := createPortalImage_ok_lookup env fs address img (by rw [hC])
    rw [hC] at h2
    simpa using h2
  cases hresp : env.respEncodeOk
  · rw [hC] at hok
    simp [WritePortalImage, hmiss, hC, hresp] at hw
  · refine ⟨?_, ?_, ?_⟩ <;>
      simp [WritePortalImage, hmiss, hC, hresp, ServeFromCache, hl]

/-- Claim C1 witness: a concrete successful cache-miss run. -/
theorem cache_fidelity_witness :
    (WritePortalImage okEnv fs0 addr16).2.2.1.lookup (cacheFileName addr16) =
      some (okEnv.pngEncode CreateBlank) ∧
    (WritePortalImage okEnv fs0 addr16).2.1.body =
      okEnv.pngEncode CreateBlank ∧
    (ServeFromCache (WritePortalImage okEnv fs0 addr16).2.2.1
        { contentType := none, body := [] }
        (cacheFileName addr16)).2.1.body = okEnv.pngEncode CreateBlank :=
  cache_fidelity okEnv fs0 addr16 CreateBlank rfl rfl rfl

/-- Claim C3: when the cache file for an address is present, the serve
operation succeeds with exactly the stored bytes as the body, leaves the
filesystem unchanged, and invokes neither font loading, canvas
composition, text rendering, nor any cache-writing step; and a second
request for an address that was just generated is served from the file
with the cached bytes, without rendering or font loading. -/
theorem cache_hit_serves_file :
    (∀ (env : Env) (fs : FS) (address : String) (content : Bytes),
      fs.lookup (cacheFileName address) = some content →
      (WritePortalImage env fs address).1 = .ok () ∧
      (WritePortalImage env fs address).2.1.body = content ∧
      (WritePortalImage env fs address).2.2.1 = fs ∧
      Ev.loadFont ∉ (WritePortalImage env fs address).2.2.2 ∧
      Ev.composeCanvas ∉ (WritePortalImage env fs address).2.2.2 ∧
      Ev.renderText ∉ (WritePortalImage env fs address).2.2.2 ∧
      Ev.createCacheFile ∉ (WritePortalImage env fs address).2.2.2 ∧
      Ev.encodeToCache ∉ (WritePortalImage env fs address).2.2.2 ∧
      Ev.mkdirCacheDir ∉ (WritePortalImage env fs address).2.2.2) ∧
    (∀ (env : Env) (fs : FS) (address : String) (img : RGBAImage),
      fs.lookup (cacheFileName address) = none →
      (CreatePortalImage env fs address).1 = .ok img →
      (WritePortalImage env
          (WritePortalImage env fs address).2.2.1 address).2.1.body =
        env.pngEncode img ∧
      Ev.renderText ∉
        (WritePortalImage env
          (WritePortalImage env fs address).2.2.1 address).2.2.2 ∧
      Ev.loadFont ∉
        (WritePortalImage env
          (WritePortalImage env fs address).2.2.1 address).2.2.2) := by
  have part1 : ∀ (env : Env) (fs : FS) (address : String) (content : Bytes),
      fs.lookup (cacheFileName address) = some content →
      (WritePortalImage env fs address).1 = .ok () ∧
      (WritePortalImage env fs address).2.1.body = content ∧
      (WritePortalImage env fs address).2.2.1 = fs ∧
      Ev.loadFont ∉ (WritePortalImage env fs address).2.2.2 ∧
      Ev.composeCanvas ∉ (WritePortalImage env fs address).2.2.2 ∧
      Ev.renderText ∉ (WritePortalImage env fs address).2.2.2 ∧
      Ev.createCacheFile ∉ (WritePortalImage env fs address).2.2.2 ∧
      Ev.encodeToCache ∉ (WritePortalImage env fs address).2.2.2 ∧
      Ev.mkdirCacheDir ∉ (WritePortalImage env fs address).2.2.2 := by
    intro env fs address content hhit
    refine ⟨?_, ?_, ?_, ?_, ?_, ?_, ?_, ?_, ?_⟩ <;>
      simp [WritePortalImage, hhit, ServeFromCache]
  refine ⟨part1, ?_⟩
  intro env fs address img hmiss hok
  rcases hC : CreatePortalImage env fs address with ⟨r, fs2, evs⟩
  have hr : r = .ok img := by
    rw [hC] at hok
    simpa using hok
  subst hr
  have hl : fs2.lookup (cacheFileName address) = some (env.pngEncode img) := by
    have h2 := createPortalImage_ok_lookup env fs address img (by rw [hC])
    rw [hC] at h2
    simpa using h2
  have hfs2 : (WritePortalImage env fs address).2.2.1 = fs2 := by
    cases hresp : env.respEncodeOk <;>
      simp [WritePortalImage, hmiss, hC, hresp]
  rw [hfs2]
  have h3 := part1 env fs2 address (env.pngEncode img) hl
  exact ⟨h3.2.1, h3.2.2.2.2.2.1, h3.2.2.2.1⟩

/-- Claim C3 witness: a concrete cache hit is served verbatim with no
rendering and no cache writing. -/
theorem cache_hit_serves_file_witness :
    (WritePortalImage okEnv fsWithEntry addr16).1 = .ok () ∧
    (WritePortalImage okEnv fsWithEntry addr16).2.1.body = [1, 2, 3] ∧
    (WritePortalImage okEnv fsWithEntry addr16).2.2.1 = fsWithEntry ∧
    Ev.loadFont ∉ (WritePortalImage okEnv fsWithEntry addr16).2.2.2 ∧
    Ev.composeCanvas ∉ (WritePortalImage okEnv fsWithEntry addr16).2.2.2 ∧
    Ev.renderText ∉ (WritePortalImage okEnv fsWithEntry addr16).2.2.2 ∧
    Ev.createCacheFile ∉ (WritePortalImage okEnv fsWithEntry addr16).2.2.2 ∧
    Ev.encodeToCache ∉ (WritePortalImage okEnv fsWithEntry addr16).2.2.2 ∧
    Ev.mkdirCacheDir ∉ (WritePortalImage okEnv fsWithEntry addr16).2.2.2 :=
  cache_hit_serves_file.1 okEnv fsWithEntry addr16 [1, 2, 3] rfl

/-- Claim C5 counterexample: a run in which rendering succeeded and the
store-to-cache step failed (os.Create fails); the service does not
attempt to serve the freshly rendered bytes: the request aborts with the
wrapped store error, the response body stays empty, and nothing is
persisted. -/
theorem store_failure_not_served :
    (CreatePortalImage badCreateEnv fs0 addr16).1 =
      .error .creatingImageFile ∧
    (WritePortalImage badCreateEnv fs0 addr16).1 =
      .error (.creatingImage .creatingImageFile) ∧
    (WritePortalImage badCreateEnv fs0 addr16).2.1.body = [] ∧
    (WritePortalImage badCreateEnv fs0 addr16).2.2.1 = fs0 :=
  ⟨rfl, rfl, rfl, rfl⟩

/-- Claim C5 (amended): on a cache miss, every failure in font loading,
text rendering, encoding, or cache storage aborts the request with the
corresponding error kind wrapped as a creating-image error, and no image
bytes are written to the response body; in particular a store failure
after a successful render serves nothing. -/
theorem pipeline_failure_aborts :
    ∀ (env : Env) (fs : FS) (address : String) (e : Err),
      fs.lookup (cacheFileName address) = none →
      (CreatePortalImage env fs address).1 = .error e →
      (WritePortalImage env fs address).1 = .error (.creatingImage e) ∧
      (WritePortalImage env fs address).2.1.body = [] := by
  intro env fs address e hmiss herr
  rcases hC : CreatePortalImage env fs address with ⟨r, fs2, evs⟩
  have hr : r = .error e := by
    rw [hC] at herr
    simpa using herr
  subst hr
  constructor <;> simp [WritePortalImage, hmiss, hC]

/-- Claim C5 witness: the amended claim at the concrete failing-store
run. -/
theorem pipeline_failure_aborts_witness :
    (WritePortalImage badCreateEnv fs0 addr16).1 =
      .error (.creatingImage .creatingImageFile) ∧
    (WritePortalImage badCreateEnv fs0 addr16).2.1.body = [] :=
  pipeline_failure_aborts badCreateEnv fs0 addr16 .creatingImageFile rfl rfl

/-- Claim C8: generation is deterministic in the address: two cold-cache
generations of the same address against different cache states (for
example isolated cache directories), in the same environment, render the
same image and encode to byte-identical PNG output. -/
theorem render_deterministic :
    ∀ (env : Env) (fsA fsB : FS) (address : String)
      (imgA imgB : RGBAImage),
      (CreatePortalImage env fsA address).1 = .ok imgA →
      (CreatePortalImage env fsB address).1 = .ok imgB →
      imgA = imgB ∧ env.pngEncode imgA = env.pngEncode imgB := by
  intro env fsA fsB address imgA imgB hA hB
  have h1 := createPortalImage_ok_render env fsA address imgA hA
  have h2 := createPortalImage_ok_render env fsB address imgB hB
  rw [h1] at h2
  have heq : imgA = imgB := by simpa using h2
  exact ⟨heq, by rw [heq]⟩

/-- Claim C8 witness: two generations of the sample address against an
empty cache with a directory and an empty cache without one. -/
theorem render_deterministic_witness :
    CreateBlank = CreateBlank ∧
    okEnv.pngEncode CreateBlank = okEnv.pngEncode CreateBlank :=
  render_deterministic okEnv fs0 fsNoDir addr16 CreateBlank CreateBlank
    rfl rfl

/-- Claim C9: when the glyph-drawing step fails, generation returns the
drawing-text error before any cache step runs: the filesystem (cache
directory flag and files) is unchanged, and no cache-directory stat, no
mkdir and no cache-file create or encode is attempted. -/
theorem render_error_preserves_cache :
    ∀ (env : Env) (fs : FS) (address : String) (f : Font),
      env.fontResult = .ok f →
      env.draw f address ((0 : Int), 40) CreateBlank = .error () →
      (CreatePortalImage env fs address).1 = .error .drawingText ∧
      (CreatePortalImage env fs address).2.1 = fs ∧
      Ev.statCacheDir ∉ (CreatePortalImage env fs address).2.2 ∧
      Ev.mkdirCacheDir ∉ (CreatePortalImage env fs address).2.2 ∧
      Ev.createCacheFile ∉ (CreatePortalImage env fs address).2.2 ∧
      Ev.encodeToCache ∉ (CreatePortalImage env fs address).2.2 := by
  intro env fs address f hf herr
  have hdf : DrawText env (PrepareFreetypeContext CreateBlank f) address =
      .error .drawingText := drawText_error_eq env CreateBlank f address herr
  refine ⟨?_, ?_, ?_, ?_, ?_, ?_⟩ <;>
    simp [CreatePortalImage, ReadFont, hf, hdf]

/-- Claim C9 witness: a concrete failing draw leaves the concrete
filesystem untouched. -/
theorem render_error_preserves_cache_witness :
    (CreatePortalImage badDrawEnv fs0 addr16).1 = .error .drawingText ∧
    (CreatePortalImage badDrawEnv fs0 addr16).2.1 = fs0 ∧
    Ev.statCacheDir ∉ (CreatePortalImage badDrawEnv fs0 addr16).2.2 ∧
    Ev.mkdirCacheDir ∉ (CreatePortalImage badDrawEnv fs0 addr16).2.2 ∧
    Ev.createCacheFile ∉ (CreatePortalImage badDrawEnv fs0 addr16).2.2 ∧
    Ev.encodeToCache ∉ (CreatePortalImage badDrawEnv fs0 addr16).2.2 :=
  render_error_preserves_cache badDrawEnv fs0 addr16 theFont rfl rfl

/-- Claim C10: every request whose path matches the address route gets
the Content-Type header image/png, regardless of whether serving,
generating, storing or encoding subsequently fails, because the header
is set before the cache-existence check. -/
theorem content_type_always_set :
    ∀ (env : Env) (fs : FS) (path address : String),
      routeMatch path = some address →
      (handleRequest env fs path).1.contentType = some "image/png" := by
  intro env fs path address h
  have hbase := writePortalImage_contentType env fs address
  rcases hW : WritePortalImage env fs address with ⟨r, resp, fs2, evs⟩
  rw [hW] at hbase
  simp only at hbase
  simp [handleRequest, h, RouteAddress, hW]
  exact hbase

/-- Claim C10 witness: the header on the concrete sample request, in an
environment where generation succeeds and in one where the store step
fails. -/
theorem content_type_always_set_witness :
    (handleRequest okEnv fs0 "/0123456789ABCDEF.png").1.contentType =
      some "image/png" ∧
    (handleRequest badCreateEnv fs0 "/0123456789ABCDEF.png").1.contentType =
      some "image/png" :=
  ⟨content_type_always_set okEnv fs0 "/0123456789ABCDEF.png" addr16
      (by decide),
    content_type_always_set badCreateEnv fs0 "/0123456789ABCDEF.png" addr16
      (by decide)⟩

end NmsGlyph
